import Mathlib

/-!
Verification development for the JSONDatabase persistent mapping
(src/JSONDatabase.py): a shallow embedding of the class and its
operations, followed by theorems settling the specified properties.

Modelling choices:
- JSON documents are an inductive value type; numbers are integers
  (no claim depends on fractional or floating-point behaviour).
- Python objects live in a heap (a list of JSON values indexed by
  address), so that reference aliasing is representable: an instance
  holds the address of its store, and the module-level default
  argument object is one fixed shared address.  This is needed to
  model the mutable default argument of the constructor.
- The filesystem is an association list from path to file data; a
  file either holds a parseable JSON value or is malformed text.
- Lock and write ordering is captured by an event trace emitted by
  the lock-acquiring operations, mirroring the statement order of
  the source line by line.
-/

/-- A JSON value, the hierarchical document model of the store. -/
inductive JSON where
  | null : JSON
  | bool : Bool → JSON
  | num : Int → JSON
  | str : String → JSON
  | arr : List JSON → JSON
  | obj : List (String × JSON) → JSON

/-- A Python dictionary with string keys, as an ordered association list. -/
abbrev Dict := List (String × JSON)

/-- Dictionary lookup: the value at the first matching key, as in
`store[key]` reading from a dict. -/
def dictGet : Dict → String → Option JSON
  | [], _ => none
  | (k', v') :: rest, k => if k' == k then some v' else dictGet rest k

/-- Dictionary update `store[key] = value`: replace in place if the key is
present, otherwise append a new entry at the end (insertion order). -/
def dictSet : Dict → String → JSON → Dict
  | [], k, v => [(k, v)]
  | (k', v') :: rest, k, v =>
      if k' == k then (k', v) :: rest else (k', v') :: dictSet rest k v

/-- Dictionary deletion `del store[key]`: remove the first matching entry. -/
def dictDel : Dict → String → Dict
  | [], _ => []
  | (k', v') :: rest, k => if k' == k then rest else (k', v') :: dictDel rest k

/-- The heap of Python objects; an address is an index into the list. -/
abbrev Heap := List JSON

/-- Read the object at an address (null for a dangling address). -/
def heapGet (h : Heap) (a : Nat) : JSON := h.getD a JSON.null

/-- Overwrite the object at an address. -/
def heapSet (h : Heap) (a : Nat) (v : JSON) : Heap := h.set a v

/-- On-disk content of one file: either text that parses to a JSON value,
or malformed text that `json.load` rejects. -/
inductive FileData where
  | json : JSON → FileData
  | malformed : FileData

/-- The filesystem: an association list from path to file data; a path
that is absent has no file. -/
abbrev FS := List (String × FileData)

/-- Look up the file at a path. -/
def fsRead : FS → String → Option FileData
  | [], _ => none
  | (q, e) :: rest, p => if q == p then some e else fsRead rest p

/-- Create or replace the file at a path, as `open(path, 'w')` plus a
full write does. -/
def fsWrite : FS → String → FileData → FS
  | [], p, d => [(p, d)]
  | (q, e) :: rest, p, d =>
      if q == p then (q, d) :: rest else (q, e) :: fsWrite rest p d

/-- `os.path.exists(location)`. -/
def pathExists (fs : FS) (p : String) : Bool := (fsRead fs p).isSome

/-- The Python exceptions the class can surface. -/
inductive PyErr where
  | keyError : String → PyErr
  | ioError : PyErr
  | formatError : PyErr
  | typeError : PyErr
  deriving DecidableEq

/-- Primitive events of the lock-acquiring operations, used to state
ordering properties between lock transitions and file writes. -/
inductive Event where
  | acquire : Event
  | release : Event
  | writeFile : Event
  deriving DecidableEq

/-- The mutable process state the class touches: the object heap and
the filesystem. -/
structure PyState where
  heap : Heap
  fs : FS

/-- A `JSONDatabase` instance: `self.location` and the address of
`self.store` in the heap.  The per-instance lock has no identity of
its own in this model; its transitions appear in the event traces. -/
structure JSONDatabase where
  location : String
  storeAddr : Nat

namespace JSONDatabase

/-- `dump`: `with self.lock, open(self.location, 'w') as f:
json.dump(self.store, f)`.  Serializes the current store to the
backing file.  Returns the new state and the event trace of the
method: acquire the lock, write the file, release the lock. -/
def dump (db : JSONDatabase) (s : PyState) : PyState × List Event :=
  ({ s with fs := fsWrite s.fs db.location (.json (heapGet s.heap db.storeAddr)) },
   [.acquire, .writeFile, .release])

/-- `load`: `with self.lock, open(self.location, 'r') as f:
self.store = json.load(f)`.  Opening a missing file raises an I/O
error; `json.load` on malformed text raises a decode error; in both
cases the exception propagates before the assignment to `self.store`,
so the instance and the state are returned unchanged together with the
exception.  On success `json.load` builds a fresh object, so the store
address is rebound to a fresh heap cell. -/
def load (db : JSONDatabase) (s : PyState) :
    JSONDatabase × PyState × Option PyErr :=
  match fsRead s.fs db.location with
  | none => (db, s, some .ioError)
  | some .malformed => (db, s, some .formatError)
  | some (.json v) =>
      ({ db with storeAddr := s.heap.length },
       { s with heap := s.heap ++ [v] }, none)

/-- `overwrite(store)`: `self.store = store; self.dump()`.  The caller
passes (a reference to) the new document, here its heap address. -/
def overwrite (db : JSONDatabase) (s : PyState) (a : Nat) :
    JSONDatabase × PyState :=
  let db' : JSONDatabase := { db with storeAddr := a }
  (db', (db'.dump s).1)

/-- `__getitem__`: `return self.store[key]`.  Raises a key error when
the key is absent from a dict store, and a type error when the store
is not subscriptable by a string. -/
def getitem (db : JSONDatabase) (s : PyState) (k : String) :
    Except PyErr JSON :=
  match heapGet s.heap db.storeAddr with
  | .obj m =>
      match dictGet m k with
      | some v => .ok v
      | none => .error (.keyError k)
  | _ => .error .typeError

/-- `__setitem__`: `self.store[key] = value`.  Mutates the store object
in the heap; no file access. -/
def setitem (db : JSONDatabase) (s : PyState) (k : String) (v : JSON) :
    PyState × Option PyErr :=
  match heapGet s.heap db.storeAddr with
  | .obj m =>
      ({ s with heap := heapSet s.heap db.storeAddr (.obj (dictSet m k v)) },
       none)
  | _ => (s, some .typeError)

/-- `__delitem__`: `del self.store[key]`.  Raises a key error when the
key is absent, leaving the state untouched; no file access. -/
def delitem (db : JSONDatabase) (s : PyState) (k : String) :
    PyState × Option PyErr :=
  match heapGet s.heap db.storeAddr with
  | .obj m =>
      match dictGet m k with
      | some _ =>
          ({ s with heap := heapSet s.heap db.storeAddr (.obj (dictDel m k)) },
           none)
      | none => (s, some (.keyError k))
  | _ => (s, some .typeError)

/-- `__len__`: `return len(self.store)`. -/
def lenOp (db : JSONDatabase) (s : PyState) : Except PyErr Nat :=
  match heapGet s.heap db.storeAddr with
  | .obj m => .ok m.length
  | .arr l => .ok l.length
  | .str t => .ok t.length
  | _ => .error .typeError

/-- `__init__(location, default, overwrite)`: store the location, bind
`self.store` to the passed default object (its heap address), then
either dump (when the overwrite flag is set or no file exists at the
location) or load.  A load failure propagates out of the constructor. -/
def init (s : PyState) (location : String) (defaultAddr : Nat)
    (ow : Bool) : JSONDatabase × PyState × Option PyErr :=
  let db : JSONDatabase := { location := location, storeAddr := defaultAddr }
  if ow || !(pathExists s.fs location) then
    (db, (db.dump s).1, none)
  else
    db.load s

/-- `__enter__`: `self.lock.acquire()`. -/
def enterEvents : List Event := [.acquire]

/-- `__exit__(type, value, traceback)`: `self.lock.release()` and then
`self.dump()`, unconditionally, whatever exception information is
passed in.  `__exit__` returns a falsy value, so an exception raised
in the scope body propagates after the flush.  The event trace is the
release of the scope lock followed by the trace of `dump`. -/
def exitScope (db : JSONDatabase) (s : PyState) (excInfo : Option PyErr) :
    PyState × List Event × Option PyErr :=
  let r := db.dump s
  (r.1, .release :: r.2, excInfo)

end JSONDatabase

/-- The module-level default argument `default: dict = {}` is evaluated
once, when the function definition is executed: every call that omits
the argument receives the same dict object.  Its fixed heap address. -/
def moduleDefaultAddr : Nat := 0

/-- The heap at module load time: the single shared default object,
initially the empty dict. -/
def moduleInitHeap : Heap := [JSON.obj []]

/-- Constructor call that omits the `default` argument: the instance
receives the shared module-level default object. -/
def initNoDefault (s : PyState) (location : String) (ow : Bool) :
    JSONDatabase × PyState × Option PyErr :=
  JSONDatabase.init s location moduleDefaultAddr ow

/-- Event `e1` occurs strictly before event `e2` in a trace (comparing
the first occurrence of each). -/
def occursBefore (es : List Event) (e1 e2 : Event) : Prop :=
  es.indexOf e1 < es.indexOf e2

/-! ### Helper lemmas about the dictionary, heap and filesystem models -/

theorem fsRead_fsWrite_self (fs : FS) (p : String) (d : FileData) :
    fsRead (fsWrite fs p d) p = some d := by
  induction fs with
  | nil => simp [fsWrite, fsRead]
  | cons e rest ih =>
      obtain ⟨q, x⟩ := e
      cases h : (q == p) <;> simp [fsWrite, fsRead, h, ih]

theorem heapGet_append_length (h : Heap) (v : JSON) :
    heapGet (h ++ [v]) h.length = v := by
  induction h with
  | nil => rfl
  | cons x t ih => exact ih

theorem heapGet_heapSet_self (h : Heap) (a : Nat) (v : JSON)
    (ha : a < h.length) : heapGet (heapSet h a v) a = v := by
  induction h generalizing a with
  | nil => simp at ha
  | cons x t ih =>
      cases a with
      | zero => rfl
      | succ n => exact ih n (Nat.lt_of_succ_lt_succ ha)

theorem dictGet_dictSet_self (m : Dict) (k : String) (v : JSON) :
    dictGet (dictSet m k v) k = some v := by
  induction m with
  | nil => simp [dictSet, dictGet]
  | cons e rest ih =>
      obtain ⟨k', v'⟩ := e
      cases h : (k' == k) <;> simp [dictSet, dictGet, h, ih]

/-! ### Claim theorems -/

/-- C1 counterexample: the claim states that on normal exit of a
scoped-mutation block the in-memory document is flushed to the backing
file before the lock is released.  On the concrete exit trace produced
by `__exit__` at a concrete instance and state, the file write does
not occur before the lock release: `__exit__` runs
`self.lock.release()` first and only then `self.dump()`. -/
theorem exit_flush_before_release_false :
    ¬ occursBefore
      (JSONDatabase.exitScope ⟨"db.json", 0⟩ ⟨moduleInitHeap, []⟩ none).2.1
      Event.writeFile Event.release := by
  unfold occursBefore
  decide

/-- C1 amended: on normal exit from a scoped-mutation block the current
in-memory document is flushed to the backing file, but only after the
scope lock has been released; the flush re-acquires and re-releases the
lock itself, so the exit trace is release, acquire, write, release,
and the release precedes the write. -/
theorem exit_flushes_after_release (db : JSONDatabase) (s : PyState) :
    (db.exitScope s none).1.fs
        = fsWrite s.fs db.location (.json (heapGet s.heap db.storeAddr))
      ∧ (db.exitScope s none).2.1
        = [Event.release, Event.acquire, Event.writeFile, Event.release]
      ∧ occursBefore (db.exitScope s none).2.1 Event.release Event.writeFile
      ∧ (db.exitScope s none).2.2 = none := by
  refine ⟨rfl, rfl, ?_, rfl⟩
  show occursBefore [Event.release, Event.acquire, Event.writeFile, Event.release]
    Event.release Event.writeFile
  unfold occursBefore
  decide

/-- C2: when a scoped-mutation block exits abnormally (an exception was
raised in the body), `__exit__` still releases the lock and still
flushes the current in-memory document to the backing file, and the
exception then propagates: flush-on-exit is unconditional. -/
theorem exit_abnormal_releases_and_flushes (db : JSONDatabase)
    (s : PyState) (e : PyErr) :
    (db.exitScope s (some e)).1.fs
        = fsWrite s.fs db.location (.json (heapGet s.heap db.storeAddr))
      ∧ Event.release ∈ (db.exitScope s (some e)).2.1
      ∧ Event.writeFile ∈ (db.exitScope s (some e)).2.1
      ∧ (db.exitScope s (some e)).2.2 = some e := by
  refine ⟨rfl, ?_, ?_, rfl⟩ <;> simp [JSONDatabase.exitScope, JSONDatabase.dump]

/-- C3: the default-document argument defaults to one process-wide
mutable dict object, so two constructions that omit it (here both with
force-reset true, identical explicit arguments, empty filesystem to
start) share one store object: right after the first construction the
key x is absent, but after setting x through the first instance, a
second instance constructed with the same arguments already contains
it — construction is not a deterministic function of its explicit
arguments, and both instances alias the same store address. -/
theorem shared_default_construction_not_independent :
    let s0 : PyState := { heap := moduleInitHeap, fs := [] }
    let r1 := initNoDefault s0 "a.json" true
    let s1 := (r1.1.setitem r1.2.1 "x" (.num 1)).1
    let r2 := initNoDefault s1 "a.json" true
    r1.1.getitem r1.2.1 "x" = .error (.keyError "x")
      ∧ r2.1.getitem r2.2.1 "x" = .ok (.num 1)
      ∧ r1.1.storeAddr = r2.1.storeAddr := ⟨rfl, rfl, rfl⟩

/-- C4: whenever `load` fails (missing file or malformed contents), the
instance and the whole process state are returned exactly as they
were: the in-memory document is untouched, the operation is
all-or-nothing. -/
theorem load_failure_leaves_document_unchanged (db db' : JSONDatabase)
    (s s' : PyState) (e : PyErr)
    (h : db.load s = (db', s', some e)) : db' = db ∧ s' = s := by
  unfold JSONDatabase.load at h
  split at h <;> simp_all

/-- Witness for C4: a concrete malformed backing file makes `load`
fail, and the theorem applies. -/
theorem load_failure_leaves_document_unchanged_witness :
    (⟨"p", 0⟩ : JSONDatabase) = ⟨"p", 0⟩
      ∧ (⟨[], [("p", FileData.malformed)]⟩ : PyState)
        = ⟨[], [("p", FileData.malformed)]⟩ :=
  load_failure_leaves_document_unchanged ⟨"p", 0⟩ ⟨"p", 0⟩
    ⟨[], [("p", FileData.malformed)]⟩ ⟨[], [("p", FileData.malformed)]⟩
    PyErr.formatError rfl

/-- C5: construction with path p, default document d (at heap address
a) and force-reset flag b: when b is set or no file exists at p, the
instance adopts d as its document and the file at p is created with d;
otherwise, when the file at p parses to v, the instance adopts v. -/
theorem construction_spec (s : PyState) (p : String) (a : Nat) (b : Bool) :
    ((b = true ∨ pathExists s.fs p = false) →
      ∃ db s', JSONDatabase.init s p a b = (db, s', none)
        ∧ db.location = p
        ∧ heapGet s'.heap db.storeAddr = heapGet s.heap a
        ∧ fsRead s'.fs p = some (.json (heapGet s.heap a)))
    ∧ (∀ v, b = false → fsRead s.fs p = some (.json v) →
      ∃ db s', JSONDatabase.init s p a b = (db, s', none)
        ∧ db.location = p
        ∧ heapGet s'.heap db.storeAddr = v) := by
  constructor
  · intro hb
    have hcond : (b || !(pathExists s.fs p)) = true := by
      cases hb with
      | inl h => simp [h]
      | inr h => simp [h]
    refine ⟨⟨p, a⟩, { s with fs := fsWrite s.fs p (.json (heapGet s.heap a)) },
      ?_, rfl, rfl, ?_⟩
    · simp [JSONDatabase.init, JSONDatabase.dump, hcond]
    · exact fsRead_fsWrite_self s.fs p _
  · intro v hb hv
    have hpe : pathExists s.fs p = true := by simp [pathExists, hv]
    refine ⟨⟨p, s.heap.length⟩, { s with heap := s.heap ++ [v] }, ?_, rfl, ?_⟩
    · simp [JSONDatabase.init, hb, hpe, JSONDatabase.load, hv]
    · exact heapGet_append_length s.heap v

/-- Witness for C5 (the force-reset branch): constructing over an empty
filesystem with the default document at address 0. -/
theorem construction_spec_witness :
    ∃ db s', JSONDatabase.init ⟨[JSON.obj []], []⟩ "db.json" 0 true
        = (db, s', none)
      ∧ db.location = "db.json"
      ∧ heapGet s'.heap db.storeAddr
        = heapGet (⟨[JSON.obj []], []⟩ : PyState).heap 0
      ∧ fsRead s'.fs "db.json"
        = some (.json (heapGet (⟨[JSON.obj []], []⟩ : PyState).heap 0)) :=
  (construction_spec ⟨[JSON.obj []], []⟩ "db.json" 0 true).1 (Or.inl rfl)

/-- C6: round-trip through the backing file: after a `dump`, a fresh
construction over the same path with force-reset false (any default)
succeeds and yields an in-memory document equal to the document the
first instance had at the moment of the dump. -/
theorem roundtrip_after_dump (db : JSONDatabase) (s : PyState) (a : Nat) :
    ∃ db2 s2,
      JSONDatabase.init (db.dump s).1 db.location a false = (db2, s2, none)
        ∧ heapGet s2.heap db2.storeAddr = heapGet s.heap db.storeAddr := by
  have hread : fsRead ((db.dump s).1).fs db.location
      = some (.json (heapGet s.heap db.storeAddr)) :=
    fsRead_fsWrite_self s.fs db.location _
  have hpe : pathExists ((db.dump s).1).fs db.location = true := by
    simp [pathExists, hread]
  refine ⟨⟨db.location, ((db.dump s).1).heap.length⟩,
    { (db.dump s).1 with
        heap := ((db.dump s).1).heap ++ [heapGet s.heap db.storeAddr] },
    ?_, ?_⟩
  · simp [JSONDatabase.init, hpe, JSONDatabase.load, hread]
  · exact heapGet_append_length _ _

/-- C7: with the in-memory document a dict at a valid heap address,
`Set(k, v)` succeeds and an immediately following `Get(k)` on the same
instance returns v. -/
theorem set_then_get (db : JSONDatabase) (s : PyState) (k : String)
    (v : JSON) (m : Dict)
    (hm : heapGet s.heap db.storeAddr = .obj m)
    (ha : db.storeAddr < s.heap.length) :
    ∃ s', db.setitem s k v = (s', none) ∧ db.getitem s' k = .ok v := by
  refine ⟨{ s with heap := heapSet s.heap db.storeAddr (.obj (dictSet m k v)) },
    ?_, ?_⟩
  · simp [JSONDatabase.setitem, hm]
  · simp [JSONDatabase.getitem, heapGet_heapSet_self _ _ _ ha,
      dictGet_dictSet_self]

/-- Witness for C7: setting a key on a concrete instance whose store is
the empty dict at address 0. -/
theorem set_then_get_witness :
    ∃ s', JSONDatabase.setitem ⟨"p", 0⟩ ⟨[JSON.obj []], []⟩ "x" JSON.null
        = (s', none)
      ∧ JSONDatabase.getitem ⟨"p", 0⟩ s' "x" = .ok JSON.null :=
  set_then_get ⟨"p", 0⟩ ⟨[JSON.obj []], []⟩ "x" JSON.null [] rfl
    (by decide)

/-- C8: with the in-memory document a dict that does not contain k,
`Get(k)` fails with a key error, and `Delete(k)` fails with a key
error while returning the state unchanged: neither modifies the
document. -/
theorem absent_key_get_delete (db : JSONDatabase) (s : PyState)
    (k : String) (m : Dict)
    (hm : heapGet s.heap db.storeAddr = .obj m)
    (hk : dictGet m k = none) :
    db.getitem s k = .error (.keyError k)
      ∧ db.delitem s k = (s, some (.keyError k)) := by
  constructor
  · simp [JSONDatabase.getitem, hm, hk]
  · simp [JSONDatabase.delitem, hm, hk]

/-- Witness for C8: looking up and deleting a key on a concrete
instance whose store is the empty dict. -/
theorem absent_key_get_delete_witness :
    JSONDatabase.getitem ⟨"p", 0⟩ ⟨[JSON.obj []], []⟩ "x"
        = .error (.keyError "x")
      ∧ JSONDatabase.delitem ⟨"p", 0⟩ ⟨[JSON.obj []], []⟩ "x"
        = (⟨[JSON.obj []], []⟩, some (.keyError "x")) :=
  absent_key_get_delete ⟨"p", 0⟩ ⟨[JSON.obj []], []⟩ "x" [] rfl rfl

/-- C9: `Set` and `Delete` are pure in-memory operations: whatever the
store holds and whether they succeed or raise, they leave the whole
filesystem — in particular the backing file — unchanged, and the
instance (hence its stored file path) is not modified at all. -/
theorem set_delete_do_not_touch_file (db : JSONDatabase) (s : PyState)
    (k : String) (v : JSON) :
    (db.setitem s k v).1.fs = s.fs ∧ (db.delitem s k).1.fs = s.fs := by
  constructor
  · unfold JSONDatabase.setitem
    split <;> rfl
  · unfold JSONDatabase.delitem
    split
    · split <;> rfl
    · rfl

/-- C10: `Overwrite` rebinds the in-memory document to the passed
document and immediately flushes it to the backing file; in
particular, when the new document is the empty dict, `Length` is 0
afterwards and the backing file parses to the empty dict. -/
theorem overwrite_spec (db : JSONDatabase) (s : PyState) (a : Nat) :
    (heapGet (db.overwrite s a).2.heap (db.overwrite s a).1.storeAddr
        = heapGet s.heap a
      ∧ fsRead (db.overwrite s a).2.fs db.location
        = some (.json (heapGet s.heap a)))
    ∧ (heapGet s.heap a = .obj [] →
        (db.overwrite s a).1.lenOp (db.overwrite s a).2 = .ok 0
          ∧ fsRead (db.overwrite s a).2.fs db.location
            = some (.json (.obj []))) := by
  have hfile : fsRead (db.overwrite s a).2.fs db.location
      = some (.json (heapGet s.heap a)) :=
    fsRead_fsWrite_self s.fs db.location _
  refine ⟨⟨rfl, hfile⟩, fun h0 => ⟨?_, ?_⟩⟩
  · have h1 : heapGet (db.overwrite s a).2.heap
        (db.overwrite s a).1.storeAddr = JSON.obj [] := h0
    simp [JSONDatabase.lenOp, h1]
  · rw [hfile, h0]

/-- Witness for C10: overwriting a one-key document with the empty dict
empties both the instance and the backing file. -/
theorem overwrite_spec_witness :
    JSONDatabase.lenOp
        (JSONDatabase.overwrite ⟨"p", 0⟩
          ⟨[JSON.obj [("x", JSON.null)], JSON.obj []], []⟩ 1).1
        (JSONDatabase.overwrite ⟨"p", 0⟩
          ⟨[JSON.obj [("x", JSON.null)], JSON.obj []], []⟩ 1).2 = .ok 0
      ∧ fsRead (JSONDatabase.overwrite ⟨"p", 0⟩
          ⟨[JSON.obj [("x", JSON.null)], JSON.obj []], []⟩ 1).2.fs "p"
        = some (.json (.obj [])) :=
  (overwrite_spec ⟨"p", 0⟩
    ⟨[JSON.obj [("x", JSON.null)], JSON.obj []], []⟩ 1).2 rfl
